import Mathlib

/-!
Verification of the wandur-2.0 retail-analytics dashboard core:
the Data Access Layer (`airtable_client.py`), the Aggregation Engine
(`analytics.py`) and the Recommendation Selector
(`recommendation_engine.py`), shallowly embedded in Lean.

Modelling conventions:
* pandas DataFrames become `DF`: an explicit column-name list plus rows of
  cell values (`Val`).
* Dates (ISO `YYYY-MM-DD` strings in the source, whose lexicographic order
  coincides with chronological order) are modelled as integer day numbers;
  "today minus 30 days" is subtraction by 30, and `datetime.weekday()` is
  the day number modulo 7 (epoch aligned on a Monday, so Saturday and
  Sunday are the residues 5 and 6).
* Randomness (`np.random.*`, `random.*`) is modelled by an explicit
  entropy source `Rng`: a stream of raw integer draws and a stream of raw
  real draws intended to lie in `[0,1)`.  Each call site reads a fixed
  position of the stream; all theorems quantify over the whole stream.
* Missing Airtable fields (`record['fields'].get(key, default)`) are
  `Option`-typed fields on the raw record structures, defaulted by
  `Option.getD` exactly as in the source.
-/

namespace Wandur

/-- A cell of a normalized table (one pandas DataFrame entry). -/
inductive Val where
  | s (v : String)
  | n (v : Nat)
  | i (v : Int)
  | q (v : ℚ)
  | b (v : Bool)
deriving DecidableEq, Repr

/-- A normalized table: the column names together with the rows, each row
listing its cells in column order. -/
structure DF where
  columns : List String
  rows : List (List Val)
deriving DecidableEq, Repr

/-- Explicit entropy source standing for the Python/NumPy global PRNGs:
a stream of raw integer draws and a stream of raw real draws in `[0,1)`. -/
structure Rng where
  ints : Nat → Nat
  reals : Nat → ℚ

/-- `np.random.randint(a, b)`: a uniform integer in the half-open range
`[a, b)`, realized from one raw integer draw. -/
def npRandint (a b : Nat) (r : Nat) : Nat := a + r % (b - a)

/-- Python `random.randint(a, b)`: a uniform integer in the closed range
`[a, b]`, realized from one raw integer draw. -/
def pyRandint (a b : Nat) (r : Nat) : Nat := a + r % (b - a + 1)

/-- `np.random.uniform(a, b)`: `a + (b - a) * u` for a raw draw `u` in
`[0,1)`. -/
def uniform (a b : ℚ) (u : ℚ) : ℚ := a + (b - a) * u

/-- Python `int(q)`: truncation toward zero. -/
def pyInt (q : ℚ) : Int := if q < 0 then Int.ceil q else Int.floor q

/-- Mean of a list of rationals, `xs.sum / xs.length` (only applied to
non-empty lists, mirroring the `len(...) > 0` guards in the source). -/
def qmean (xs : List ℚ) : ℚ := xs.sum / (xs.length : ℚ)

/-! ## Data Access Layer (`airtable_client.py`)

Raw Airtable records carry `Option`-typed fields (a missing key in
`record['fields']`); the `get_*_data` functions normalize them into flat
rows with a fixed column set, defaulting missing fields to `""`, `0`,
`false` exactly as `fields.get(key, default)` does. -/

/-- A raw `Visitors` record as returned by the record source. -/
structure VisitorRecord where
  id : String
  storeID : Option String
  date : Option Int
  time : Option String
  visitorID : Option String
  duration : Option Int
  converted : Option Bool
deriving DecidableEq, Repr

/-- A normalized visitor row (one row of the visitor table). -/
structure VisitorRow where
  id : String
  store_id : String
  date : Int
  time : String
  visitor_id : String
  duration : Int
  converted : Bool
deriving DecidableEq, Repr

/-- A raw `Purchases` record as returned by the record source. -/
structure PurchaseRecord where
  id : String
  storeID : Option String
  date : Option Int
  time : Option String
  visitorID : Option String
  amount : Option ℚ
  items : Option Int
deriving DecidableEq, Repr

/-- A normalized purchase row (one row of the purchase table). -/
structure PurchaseRow where
  id : String
  store_id : String
  date : Int
  time : String
  visitor_id : String
  amount : ℚ
  items : Int
deriving DecidableEq, Repr

/-- A raw `CustomerSegments` record as returned by the record source. -/
structure SegmentRecord where
  id : String
  storeID : Option String
  segment : Option String
  count : Option Nat
  avgSpend : Option ℚ
deriving DecidableEq, Repr

/-- A raw `HeatmapData` record as returned by the record source. -/
structure HeatmapRecord where
  storeID : Option String
  date : Option Int
  x : Option Int
  y : Option Int
  density : Option ℚ
deriving DecidableEq, Repr

/-- Normalization of one visitor record (`airtable_client.py` lines
86-94). -/
def normVisitor (v : VisitorRecord) : VisitorRow :=
  { id := v.id
    store_id := v.storeID.getD ""
    date := v.date.getD 0
    time := v.time.getD ""
    visitor_id := v.visitorID.getD ""
    duration := v.duration.getD 0
    converted := v.converted.getD false }

/-- The cells of a visitor row in column order. -/
def VisitorRow.vals (r : VisitorRow) : List Val :=
  [Val.s r.id, Val.s r.store_id, Val.i r.date, Val.s r.time,
   Val.s r.visitor_id, Val.i r.duration, Val.b r.converted]

/-- Fixed column set of the visitor table. -/
def visitorColumns : List String :=
  ["id", "store_id", "date", "time", "visitor_id", "duration", "converted"]

/-- `AirtableClient.get_visitors_data`, applied to the records matching
the query: normalizes into the fixed 7-column visitor table, with an
explicit empty-table branch as in the source. -/
def get_visitors_data (records : List VisitorRecord) : DF :=
  if records.isEmpty then
    { columns := visitorColumns, rows := [] }
  else
    { columns := visitorColumns, rows := records.map (fun v => (normVisitor v).vals) }

/-- Normalization of one purchase record (`airtable_client.py` lines
133-141). -/
def normPurchase (p : PurchaseRecord) : PurchaseRow :=
  { id := p.id
    store_id := p.storeID.getD ""
    date := p.date.getD 0
    time := p.time.getD ""
    visitor_id := p.visitorID.getD ""
    amount := p.amount.getD 0
    items := p.items.getD 0 }

/-- The cells of a purchase row in column order. -/
def PurchaseRow.vals (r : PurchaseRow) : List Val :=
  [Val.s r.id, Val.s r.store_id, Val.i r.date, Val.s r.time,
   Val.s r.visitor_id, Val.q r.amount, Val.i r.items]

/-- Fixed column set of the purchase table. -/
def purchaseColumns : List String :=
  ["id", "store_id", "date", "time", "visitor_id", "amount", "items"]

/-- `AirtableClient.get_purchases_data`, applied to the records matching
the query: normalizes into the fixed 7-column purchase table, with an
explicit empty-table branch as in the source. -/
def get_purchases_data (records : List PurchaseRecord) : DF :=
  if records.isEmpty then
    { columns := purchaseColumns, rows := [] }
  else
    { columns := purchaseColumns, rows := records.map (fun p => (normPurchase p).vals) }

/-- Fixed column set of the segment table (non-empty case). -/
def segmentColumns : List String :=
  ["id", "store_id", "segment", "count", "avg_spend"]

namespace Airtable

/-- `AirtableClient.get_customer_segments`, applied to the records
matching the query: when no record matched it returns the hard-coded
dummy rows (counts 35, 45, 20, 10) with only two columns; otherwise the
normalized 5-column segment table. -/
def get_customer_segments (records : List SegmentRecord) : DF :=
  if records.isEmpty then
    { columns := ["segment", "count"],
      rows := [[Val.s "First-time", Val.n 35],
               [Val.s "Occasional", Val.n 45],
               [Val.s "Regular", Val.n 20],
               [Val.s "Loyal", Val.n 10]] }
  else
    { columns := segmentColumns,
      rows := records.map (fun s =>
        [Val.s s.id, Val.s (s.storeID.getD ""), Val.s (s.segment.getD ""),
         Val.n (s.count.getD 0), Val.q (s.avgSpend.getD 0)]) }

end Airtable

/-! ## Aggregation Engine (`analytics.py`)

The aggregation functions consume the normalized row lists (the visitor
and purchase tables have fixed column sets, so the row list carries the
whole table) and produce `DF`s or a metrics record. -/

/-- The dictionary returned by `get_key_metrics`. -/
structure KeyMetrics where
  foot_traffic : Nat
  conversion_rate : ℚ
  avg_purchase : ℚ
deriving DecidableEq, Repr

/-- The metric computation of `AnalyticsProcessor.get_key_metrics`
(lines 45-69), from the already-fetched visitor and purchase tables:
computes foot traffic, conversion rate and average purchase, then
overwrites all three with synthetic draws when the visitor table was
empty (`foot_traffic == 0`). -/
def get_key_metrics_core (visitors : List VisitorRow) (purchases : List PurchaseRow)
    (rng : Rng) : KeyMetrics :=
  let foot_traffic := visitors.length
  let conversion_rate : ℚ :=
    if 0 < foot_traffic then
      ((visitors.filter (fun r => r.converted)).length : ℚ) / (foot_traffic : ℚ) * 100
    else 0
  let avg_purchase : ℚ :=
    if 0 < purchases.length then qmean (purchases.map (fun p => p.amount))
    else 0
  if foot_traffic = 0 then
    { foot_traffic := npRandint 500 1500 (rng.ints 0)
      conversion_rate := uniform 15 30 (rng.reals 0)
      avg_purchase := uniform 40 80 (rng.reals 1) }
  else
    { foot_traffic := foot_traffic
      conversion_rate := conversion_rate
      avg_purchase := avg_purchase }

/-- `AnalyticsProcessor.get_key_metrics` (lines 31-69): resolves the date
window (absent `start_date`: trailing 30 days ending today, with
`end_date` overwritten to today; absent `end_date` alone: today), fetches
both tables for that window and computes the metrics.  The data fetch is
a parameter standing for the Airtable queries. -/
def get_key_metrics (today : Int) (start_date end_date : Option Int)
    (fetchVisitors : Int → Int → List VisitorRow)
    (fetchPurchases : Int → Int → List PurchaseRow) (rng : Rng) : KeyMetrics :=
  let window : Int × Int :=
    match start_date with
    | none => (today - 30, today)
    | some s =>
      match end_date with
      | none => (s, today)
      | some e => (s, e)
  get_key_metrics_core (fetchVisitors window.1 window.2)
    (fetchPurchases window.1 window.2) rng

/-- Day-of-week of an integer day number, `datetime.weekday()` style
(0 = Monday, ..., 6 = Sunday; the epoch is aligned on a Monday). -/
def weekday (d : Int) : Int := d.emod 7

/-- Insert a date into a sorted date list (ascending). -/
def insertDate (d : Int) : List Int → List Int
  | [] => [d]
  | e :: es => if d ≤ e then d :: e :: es else e :: insertDate d es

/-- Sort a date list ascending (the order `groupby('date')` emits its
groups in). -/
def sortDates : List Int → List Int
  | [] => []
  | d :: ds => insertDate d (sortDates ds)

/-- `AnalyticsProcessor.get_traffic_data` (lines 84-127): with real data,
count visitors per date (groups sorted ascending); otherwise one row per
date of `[start_date, end_date]` with count
`int(50 * weekend_factor * Uniform[0.8,1.2])`. -/
def get_traffic_data (visitors : List VisitorRow) (start_date end_date : Int)
    (rng : Rng) : DF :=
  if 0 < visitors.length then
    let dates := sortDates ((visitors.map (fun r => r.date)).dedup)
    { columns := ["date", "visitors"],
      rows := dates.map (fun d =>
        [Val.i d, Val.n (visitors.countP (fun r => decide (r.date = d)))]) }
  else
    { columns := ["date", "visitors"],
      rows := (List.range (end_date + 1 - start_date).toNat).map (fun (k : Nat) =>
        let d := start_date + (k : Int)
        let weekend_factor : ℚ := if 5 ≤ weekday d then 3/2 else 1
        let random_factor := uniform (4/5) (6/5) (rng.reals k)
        [Val.i d, Val.i (pyInt (50 * weekend_factor * random_factor))]) }

namespace Analytics

/-- `AnalyticsProcessor.get_customer_segments` (lines 141-154): passes
the Data Access Layer's segment table through when it is non-empty and
has a `segment` column, and otherwise builds the random 4-row fallback. -/
def get_customer_segments (records : List SegmentRecord) (rng : Rng) : DF :=
  let segments_df := Airtable.get_customer_segments records
  if 0 < segments_df.rows.length ∧ "segment" ∈ segments_df.columns then
    segments_df
  else
    { columns := ["segment", "count"],
      rows := [[Val.s "First-time", Val.n (npRandint 30 50 (rng.ints 0))],
               [Val.s "Occasional", Val.n (npRandint 40 60 (rng.ints 1))],
               [Val.s "Regular", Val.n (npRandint 20 40 (rng.ints 2))],
               [Val.s "Loyal", Val.n (npRandint 10 20 (rng.ints 3))]] }

end Analytics

/-- The four funnel rows built at `analytics.py` lines 213-218. -/
def mkFunnel (total engaged converted repeats : Int) : DF :=
  { columns := ["stage", "count"],
    rows := [[Val.s "Total Visitors", Val.i total],
             [Val.s "Engaged", Val.i engaged],
             [Val.s "Converted", Val.i converted],
             [Val.s "Repeat Customers", Val.i repeats]] }

/-- `AnalyticsProcessor.get_conversion_data` (lines 187-220): funnel
stage counts from real data when the visitor table is non-empty,
otherwise chained synthetic draws. -/
def get_conversion_data (visitors : List VisitorRow) (purchases : List PurchaseRow)
    (rng : Rng) : DF :=
  if 0 < visitors.length then
    let total := (visitors.length : Int)
    let engaged := (visitors.countP (fun r => decide (5 < r.duration)) : Int)
    let converted := (visitors.countP (fun r => r.converted) : Int)
    let repeats : Int :=
      if 0 < purchases.length then
        (((purchases.map (fun p => p.visitor_id)).dedup).countP (fun v =>
          decide (1 < purchases.countP (fun p => decide (p.visitor_id = v)))) : Int)
      else 0
    mkFunnel total engaged converted repeats
  else
    let total := (npRandint 800 1200 (rng.ints 0) : Int)
    let engaged := pyInt ((total : ℚ) * uniform (2/5) (3/5) (rng.reals 0))
    let converted := pyInt ((engaged : ℚ) * uniform (1/5) (2/5) (rng.reals 1))
    let repeats := pyInt ((converted : ℚ) * uniform (1/10) (3/10) (rng.reals 2))
    mkFunnel total engaged converted repeats

/-- Hour extraction at `analytics.py` line 240:
`int(x.split(':')[0])`.  (The source raises on an unparsable time string;
normalized time strings are always `HH:MM`, and we default to 0.) -/
def hourOf (t : String) : Int := (((t.splitOn ":").headD "").toInt?).getD 0

/-- `AnalyticsProcessor.get_peak_hours` (lines 235-278): with real data,
count visitors per hour and left-join against the full hour range 9..20
filling 0 (hours outside 9..20 are dropped by the join); otherwise the
synthetic hourly pattern.  The source's `'time' in visitors_df.columns`
guard is always true for the normalized 7-column visitor table. -/
def get_peak_hours (visitors : List VisitorRow) (rng : Rng) : DF :=
  if 0 < visitors.length then
    { columns := ["hour", "visitors"],
      rows := (List.range 12).map (fun k =>
        let h : Int := 9 + k
        [Val.i h, Val.n (visitors.countP (fun r => decide (hourOf r.time = h)))]) }
  else
    { columns := ["hour", "visitors"],
      rows := (List.range 12).map (fun k =>
        let h : Nat := 9 + k
        let base : ℚ :=
          if h < 12 then 30 + ((h : ℚ) - 9) * 10
          else if h = 12 ∨ h = 13 then 80
          else if h < 17 then 50
          else 70
        [Val.i (h : Int), Val.i (pyInt (base * uniform (4/5) (6/5) (rng.reals k)))]) }

/-- The duration bucket of one visitor row under
`pd.cut(durations, bins=[0, 5, 15, 30, 60, inf])` (`analytics.py` lines
298-301).  `pd.cut` uses right-closed intervals by default, so the
buckets are `(0,5], (5,15], (15,30], (30,60], (60,inf)`; values outside
every bin (durations `≤ 0` here) get no bucket. -/
def durationCategory (d : Int) : Option (Fin 5) :=
  if 0 < d ∧ d ≤ 5 then some 0
  else if 5 < d ∧ d ≤ 15 then some 1
  else if 15 < d ∧ d ≤ 30 then some 2
  else if 30 < d ∧ d ≤ 60 then some 3
  else if 60 < d then some 4
  else none

/-- Number of visitor rows falling in duration bucket `i`. -/
def dwellCount (visitors : List VisitorRow) (i : Fin 5) : Nat :=
  visitors.countP (fun r => decide (durationCategory r.duration = some i))

/-- `AnalyticsProcessor.get_dwell_time_distribution` (lines 293-318):
with real data, one row per duration bucket (the groupby over the
categorical emits all five labels in bin order) under a
`duration_category` column; otherwise the synthetic 5-row table under a
`duration` column.  The source's `'duration' in visitors_df.columns`
guard is always true for the normalized 7-column visitor table. -/
def get_dwell_time_distribution (visitors : List VisitorRow) (rng : Rng) : DF :=
  if 0 < visitors.length then
    { columns := ["duration_category", "count"],
      rows := [[Val.s "< 5 min", Val.n (dwellCount visitors 0)],
               [Val.s "5-15 min", Val.n (dwellCount visitors 1)],
               [Val.s "15-30 min", Val.n (dwellCount visitors 2)],
               [Val.s "30-60 min", Val.n (dwellCount visitors 3)],
               [Val.s "> 60 min", Val.n (dwellCount visitors 4)]] }
  else
    { columns := ["duration", "count"],
      rows := [[Val.s "< 5 min", Val.n (npRandint 50 100 (rng.ints 0))],
               [Val.s "5-15 min", Val.n (npRandint 80 150 (rng.ints 1))],
               [Val.s "15-30 min", Val.n (npRandint 40 90 (rng.ints 2))],
               [Val.s "30-60 min", Val.n (npRandint 20 50 (rng.ints 3))],
               [Val.s "> 60 min", Val.n (npRandint 5 20 (rng.ints 4))]] }

/-! ## Heatmap (`airtable_client.get_heatmap_data`) -/

/-- Clamp a grid coordinate into `[0, 9]`
(`min(max(int(v), 0), 9)`, lines 229-230), as a list index. -/
def clamp9 (v : Int) : Nat := (min (max v 0) 9).toNat

/-- Write one cell of the density grid (`density[y][x] = value`). -/
def setCell (g : List (List ℚ)) (y x : Nat) (v : ℚ) : List (List ℚ) :=
  g.set y ((g.getD y []).set x v)

/-- The all-zero 10 by 10 grid (`[[0]*10]*10`, line 220). -/
def zeroGrid : List (List ℚ) := List.replicate 10 (List.replicate 10 0)

/-- Processing of one heatmap record (lines 223-232): defaults for
missing fields, clamp both coordinates into `[0, 9]`, write the cell. -/
def applyRecord (g : List (List ℚ)) (r : HeatmapRecord) : List (List ℚ) :=
  setCell g (clamp9 (r.y.getD 0)) (clamp9 (r.x.getD 0)) (r.density.getD 0)

/-- The synthetic density grid (lines 208-214): `np.random.rand(10,10)`
with the block rows 2-3 x cols 2-3 scaled by 3 and rows 7-8 x cols 7-8
scaled by 2. -/
def mockDensity (rng : Rng) : List (List ℚ) :=
  (List.range 10).map (fun y => (List.range 10).map (fun x =>
    let base := rng.reals (y * 10 + x)
    if 2 ≤ y ∧ y < 4 ∧ 2 ≤ x ∧ x < 4 then base * 3
    else if 7 ≤ y ∧ y < 9 ∧ 7 ≤ x ∧ x < 9 then base * 2
    else base))

/-- `AirtableClient.get_heatmap_data` (lines 204-234), applied to the
records matching the query: the returned `density` matrix (the dict
wrapper elided).  With no matching record the synthetic grid; otherwise
the zero grid overwritten cell-by-cell per record, coordinates clamped. -/
def get_heatmap_data (records : List HeatmapRecord) (rng : Rng) : List (List ℚ) :=
  if records.isEmpty then mockDensity rng
  else records.foldl applyRecord zeroGrid

/-! ## Recommendation Selector (`recommendation_engine.py`) -/

/-- One recommendation object: `{title, description, category}`, with the
`impact_score` key added at the end of `get_recommendations`
(0 before assignment). -/
structure Recommendation where
  title : String
  description : String
  category : String
  impact_score : Nat
deriving DecidableEq, Repr

/-- `random.choice(xs)`: an element of `xs` selected by one raw draw
(the source raises on an empty list; every call site passes a non-empty
one, and we return a sentinel with empty fields there). -/
def pyChoice (xs : List Recommendation) (r : Nat) : Recommendation :=
  xs.getD (r % xs.length) { title := "", description := "", category := "", impact_score := 0 }

/-- `RecommendationEngine._get_potential_recommendations`: the static
16-template catalog, descriptions templated with the store name. -/
def potential_recommendations (store_name : String) : List Recommendation :=
  [{ title := "Optimize Store Layout",
     description := "Analysis shows customers spend less time in the north section of "
       ++ store_name ++ ". Consider rearranging displays or adding attention-grabbing elements.",
     category := "engagement", impact_score := 0 },
   { title := "Interactive Product Displays",
     description := "Adding interactive elements to key product displays could increase engagement time by up to 40% based on industry benchmarks.",
     category := "engagement", impact_score := 0 },
   { title := "Staff Engagement Training",
     description := "Customer interaction data suggests that personalized greetings and product information sharing could significantly boost engagement at "
       ++ store_name ++ ".",
     category := "engagement", impact_score := 0 },
   { title := "Optimize Checkout Process",
     description := "Data indicates some customers abandon purchases at checkout. Streamlining the process could improve conversion rates at "
       ++ store_name ++ ".",
     category := "conversion", impact_score := 0 },
   { title := "Strategic Product Placement",
     description := "Moving high-interest items to areas with the highest foot traffic could increase conversions by 15-25% at "
       ++ store_name ++ ".",
     category := "conversion", impact_score := 0 },
   { title := "Limited-Time Offers",
     description := "Implementing time-sensitive promotions could create urgency and boost conversion rates, especially during peak hours (12-2pm and 5-7pm).",
     category := "conversion", impact_score := 0 },
   { title := "Bundle Popular Items",
     description := "Creating product bundles with your top-selling items could increase average transaction value by 20-30%.",
     category := "upsell", impact_score := 0 },
   { title := "Premium Product Spotlight",
     description := "Highlighting premium products near popular items could increase their visibility and sales potential at "
       ++ store_name ++ ".",
     category := "upsell", impact_score := 0 },
   { title := "Staff Upselling Training",
     description := "Training staff to suggest complementary products could significantly increase average purchase value at "
       ++ store_name ++ ".",
     category := "upsell", impact_score := 0 },
   { title := "Launch Loyalty Program",
     description := "Based on repeat visitor data, implementing a loyalty program could increase customer retention by 25-40% at "
       ++ store_name ++ ".",
     category := "loyalty", impact_score := 0 },
   { title := "Personalized Offers",
     description := "Sending personalized offers to repeat customers based on their purchase history could significantly increase return visits.",
     category := "loyalty", impact_score := 0 },
   { title := "Social Media Showcase",
     description := "Creating Instagram-worthy product displays or areas could increase social sharing and attract new customers to "
       ++ store_name ++ ".",
     category := "marketing", impact_score := 0 },
   { title := "In-Mall Advertising",
     description := "Data shows many first-time visitors discover " ++ store_name
       ++ " through in-mall advertising. Increasing this presence could boost new customer acquisition.",
     category := "marketing", impact_score := 0 },
   { title := "Targeted Geofenced Ads",
     description := "Using the Wandur app\x27s geofenced advertising feature to target potential customers near "
       ++ store_name ++ " could increase walk-ins by up to 30%.",
     category := "marketing", impact_score := 0 },
   { title := "Adjust Staffing Levels",
     description := "Foot traffic analysis suggests " ++ store_name
       ++ " needs additional staff during peak hours (12-2pm and 5-7pm) to maintain service quality.",
     category := "operations", impact_score := 0 },
   { title := "Optimize Opening Hours",
     description := "Visitor data indicates potential for increased revenue by extending hours on weekends at "
       ++ store_name ++ ".",
     category := "operations", impact_score := 0 }]

/-- `RecommendationEngine._get_recommendation_by_category` (lines
98-115): a uniform-random pick among the same-category candidates,
falling back to the whole list when the category is empty. -/
def get_recommendation_by_category (recommendations : List Recommendation)
    (category : String) (r : Nat) : Recommendation :=
  let category_recommendations :=
    recommendations.filter (fun c => decide (c.category = category))
  if 0 < category_recommendations.length then pyChoice category_recommendations r
  else pyChoice recommendations r

/-- One iteration of the remaining-slot fill loop
(`recommendation_engine.py` lines 79-87): pick one item from the
categories not yet used, falling back to the whole catalog when every
category is used. -/
def fillPick (potential selected : List Recommendation) (rng : Rng) (i : Nat) :
    Recommendation :=
  let used_categories := selected.map (fun c => c.category)
  let available := potential.filter (fun c => decide (c.category ∉ used_categories))
  if 0 < available.length then pyChoice available (rng.ints i)
  else pyChoice potential (rng.ints i)

/-- The remaining-slot fill loop (`recommendation_engine.py` lines
77-87): each of the `k` iterations appends one `fillPick`.  `i` is the
position in the raw draw stream. -/
def fillSlots (potential : List Recommendation) (selected : List Recommendation)
    (k : Nat) (rng : Rng) (i : Nat) : List Recommendation :=
  match k with
  | 0 => selected
  | Nat.succ k =>
    fillSlots potential (selected ++ [fillPick potential selected rng i]) k rng (i + 1)

/-- `random.sample(xs, k)`: `k` distinct positions, modelled by drawing
an index and removing the chosen element. -/
def pySample (xs : List Recommendation) (k : Nat) (rng : Rng) (i : Nat) :
    List Recommendation :=
  match k with
  | 0 => []
  | Nat.succ k =>
    match xs with
    | [] => []
    | xs =>
      let j := rng.ints i % xs.length
      pyChoice xs (rng.ints i) :: pySample (xs.eraseIdx j) k rng (i + 1)

/-- The impact-score loop (`recommendation_engine.py` lines 93-94): each
selected item gets `impact_score = random.randint(6, 10)`. -/
def setImpacts (selected : List Recommendation) (rng : Rng) (i : Nat) :
    List Recommendation :=
  match selected with
  | [] => []
  | c :: rest =>
    { c with impact_score := pyRandint 6 10 (rng.ints i) } :: setImpacts rest rng (i + 1)

/-- `RecommendationEngine.get_recommendations` (lines 20-96), applied to
the fetched 30-day visitor and purchase tables: picks a target count in
`[3,5]`, shortlists one item per triggered threshold rule in the
real-data branch (both tables non-empty), fills the remaining slots, and
assigns impact scores.  Raw draw stream positions are fixed per call
site; theorems quantify over the whole stream. -/
def get_recommendations (store_name : String) (visitors : List VisitorRow)
    (purchases : List PurchaseRow) (rng : Rng) : List Recommendation :=
  let potential := potential_recommendations store_name
  let num_recommendations := pyRandint 3 5 (rng.ints 0)
  let selected :=
    if 0 < visitors.length ∧ 0 < purchases.length then
      let avg_dwell_time := qmean (visitors.map (fun r => (r.duration : ℚ)))
      let conversion_rate :=
        ((visitors.filter (fun r => r.converted)).length : ℚ) / (visitors.length : ℚ) * 100
      let avg_purchase := qmean (purchases.map (fun p => p.amount))
      let s1 : List Recommendation :=
        if avg_dwell_time < 10 then
          [get_recommendation_by_category potential "engagement" (rng.ints 1)]
        else []
      let s2 :=
        if conversion_rate < 20 then
          s1 ++ [get_recommendation_by_category potential "conversion" (rng.ints 2)]
        else s1
      let s3 :=
        if avg_purchase < 50 then
          s2 ++ [get_recommendation_by_category potential "upsell" (rng.ints 3)]
        else s2
      fillSlots potential s3 (num_recommendations - s3.length) rng 4
    else
      pySample potential num_recommendations rng 1
  setImpacts selected rng 100

/-! ## Observation helpers for stating the properties -/

/-- The `count` cell of the table row labelled `lab` (0 when absent). -/
def countOf (df : DF) (lab : String) : Nat :=
  match df.rows.find? (fun row => decide (row.getD 0 (Val.n 0) = Val.s lab)) with
  | some row =>
    match row.getD 1 (Val.n 0) with
    | Val.n k => k
    | _ => 0
  | none => 0

/-- The `count` cell of one table row (0 when it is not a `Val.n`). -/
def rowCountVal (row : List Val) : Nat :=
  match row.getD 1 (Val.n 0) with
  | Val.n k => k
  | _ => 0

/-- Sum of all `count` cells of a table. -/
def countSum (df : DF) : Nat := (df.rows.map rowCountVal).sum

/-! ## Concrete fixtures for witnesses and counterexamples -/

/-- An all-zero entropy source. -/
def rng0 : Rng := ⟨fun _ => 0, fun _ => 0⟩

/-- Entropy source whose every raw integer draw is 1. -/
def rngOne : Rng := ⟨fun _ => 1, fun _ => 0⟩

/-- Entropy source whose every raw real draw is 1/2 (kept in `[0,1)`). -/
def rngHalf : Rng := ⟨fun _ => 0, fun _ => 1/2⟩

/-- A visitor row with the given duration and conversion flag. -/
def mkVRow (d : Int) (conv : Bool) : VisitorRow :=
  { id := "", store_id := "", date := 0, time := "", visitor_id := "",
    duration := d, converted := conv }

/-- A purchase row with the given amount. -/
def mkPRow (a : ℚ) : PurchaseRow :=
  { id := "", store_id := "", date := 0, time := "", visitor_id := "",
    amount := a, items := 0 }

/-- A concrete raw segment record. -/
def seg1 : SegmentRecord :=
  { id := "rec1", storeID := some "store1", segment := some "Regular",
    count := some 7, avgSpend := some 3 }

/-! ## Claims -/

/-- C6 (amended): the Data Access Layer's purchase table has exactly 7
columns (`id`, `store_id`, `date`, `time`, `visitor_id`, `amount`,
`items`), and this fixed column set is returned regardless of match
count, including when no purchase row matches. -/
theorem purchase_columns_seven (records : List PurchaseRecord) :
    (get_purchases_data records).columns = purchaseColumns
    ∧ (get_purchases_data records).columns.length = 7 := by
  unfold get_purchases_data
  split <;> exact ⟨rfl, rfl⟩

/-- C6 counterexample: the purchase table (here for zero matching rows,
but the column set never varies) has 7 columns, not 6 as claimed. -/
theorem purchase_columns_not_six :
    (get_purchases_data []).columns.length = 7
    ∧ (get_purchases_data []).columns.length ≠ 6 := by
  decide

/-- C4 (amended): when no segment record exists for the given store, the
Aggregation Engine's `get_customer_segments` returns exactly 4 rows with
segment names First-time, Occasional, Regular, Loyal — but with the Data
Access Layer's fixed dummy counts 35, 45, 20, 10, for every state of the
random source: the analytics-level random fallback is unreachable, since
the Data Access Layer's dummy table is non-empty and has a `segment`
column. -/
theorem segments_fallback_fixed (rng : Rng) :
    Analytics.get_customer_segments [] rng
      = { columns := ["segment", "count"],
          rows := [[Val.s "First-time", Val.n 35],
                   [Val.s "Occasional", Val.n 45],
                   [Val.s "Regular", Val.n 20],
                   [Val.s "Loyal", Val.n 10]] }
    ∧ (Analytics.get_customer_segments [] rng).rows.length = 4 := by
  exact ⟨rfl, rfl⟩

/-- C4 counterexample: with every raw integer draw equal to 1, the
claimed random per-segment draws would be 31, 41, 21, 11, but
`get_customer_segments` returns the fixed counts 35, 45, 20, 10 — the
counts are not drawn from the random source at all. -/
theorem segments_fallback_not_random :
    (Analytics.get_customer_segments [] rngOne).rows.map rowCountVal = [35, 45, 20, 10]
    ∧ [npRandint 30 50 (rngOne.ints 0), npRandint 40 60 (rngOne.ints 1),
       npRandint 20 40 (rngOne.ints 2), npRandint 10 20 (rngOne.ints 3)] = [31, 41, 21, 11]
    ∧ ([35, 45, 20, 10] : List Nat) ≠ [31, 41, 21, 11] := by
  decide

/-- C5 (amended): in `get_key_metrics`, when `start_date` is absent the
window is the trailing 30 days ending today and the window end is today
regardless of any caller-supplied `end_date` (which is overwritten); when
`start_date` is present and `end_date` absent, the end defaults to today;
a caller-supplied `end_date` is used as the window end only when
`start_date` is also supplied. -/
theorem key_metrics_date_window (today s e : Int)
    (fetchVisitors : Int → Int → List VisitorRow)
    (fetchPurchases : Int → Int → List PurchaseRow) (rng : Rng) :
    (∀ endOpt : Option Int,
      get_key_metrics today none endOpt fetchVisitors fetchPurchases rng
        = get_key_metrics_core (fetchVisitors (today - 30) today)
            (fetchPurchases (today - 30) today) rng)
    ∧ get_key_metrics today (some s) none fetchVisitors fetchPurchases rng
        = get_key_metrics_core (fetchVisitors s today) (fetchPurchases s today) rng
    ∧ get_key_metrics today (some s) (some e) fetchVisitors fetchPurchases rng
        = get_key_metrics_core (fetchVisitors s e) (fetchPurchases s e) rng := by
  refine ⟨fun endOpt => ?_, rfl, rfl⟩
  cases endOpt <;> rfl

/-- C5 counterexample: with `start_date` absent and a caller-supplied
`end_date` of day 42, the fetch (here a fetcher whose row count reveals
the window end it was passed) is performed with window end 100 (today),
not 42 — the supplied `end_date` is not used. -/
theorem key_metrics_end_date_ignored :
    (get_key_metrics 100 none (some 42)
        (fun _ e => List.replicate e.toNat (mkVRow 1 false))
        (fun _ _ => []) rng0).foot_traffic = 100
    ∧ (100 : Nat) ≠ 42 := by
  exact ⟨rfl, by decide⟩

/-- C1 (amended): `get_key_metrics` (a fixed three-key record by
construction), `get_traffic_data`, `get_conversion_data` and
`get_peak_hours` return the same columns/keys for every input table,
empty or not; but `get_customer_segments` (5-column passthrough vs
2-column fallback) and `get_dwell_time_distribution` (`duration_category`
vs `duration` column) do not. -/
theorem aggregation_schema_partially_constant (visitors : List VisitorRow)
    (purchases : List PurchaseRow) (start_date end_date : Int) (rng : Rng) :
    (get_traffic_data visitors start_date end_date rng).columns = ["date", "visitors"]
    ∧ (get_conversion_data visitors purchases rng).columns = ["stage", "count"]
    ∧ (get_peak_hours visitors rng).columns = ["hour", "visitors"] := by
  refine ⟨?_, ?_, ?_⟩
  · unfold get_traffic_data
    split <;> rfl
  · unfold get_conversion_data
    split <;> rfl
  · unfold get_peak_hours
    split <;> rfl

/-- C1 counterexample: for the empty visitor table
`get_dwell_time_distribution` returns a `duration` column where the
non-empty case returns `duration_category`, and for no matching segment
record `get_customer_segments` returns 2 columns where the non-empty case
returns 5 — the schemas are not the same. -/
theorem dwell_and_segments_schema_mismatch :
    (get_dwell_time_distribution [] rng0).columns
        ≠ (get_dwell_time_distribution [mkVRow 1 false] rng0).columns
    ∧ (Analytics.get_customer_segments [] rng0).columns
        ≠ (Analytics.get_customer_segments [seg1] rng0).columns := by
  decide

/-- C3 (amended): the mode of `avg_purchase` is selected by whether the
VISITOR table is non-empty, not the purchase table: when the visitor
table is non-empty, `avg_purchase` is the mean of the `amount` column if
the purchase table is non-empty and 0 if it is empty; when the visitor
table is empty, `avg_purchase` is the synthetic Uniform[40,80] draw
regardless of the purchase table. -/
theorem avg_purchase_mode (visitors : List VisitorRow) (purchases : List PurchaseRow)
    (rng : Rng) :
    (visitors ≠ [] →
      (get_key_metrics_core visitors purchases rng).avg_purchase
        = if purchases ≠ [] then qmean (purchases.map (fun p => p.amount)) else 0)
    ∧ (visitors = [] →
      (get_key_metrics_core visitors purchases rng).avg_purchase
        = uniform 40 80 (rng.reals 1)) := by
  rcases visitors with _ | ⟨v, vs⟩
  · refine ⟨fun hv => absurd rfl hv, fun _ => ?_⟩
    simp [get_key_metrics_core]
  · refine ⟨fun _ => ?_, fun hv => by simp at hv⟩
    rcases purchases with _ | ⟨p, ps⟩
    · simp [get_key_metrics_core]
    · simp [get_key_metrics_core]

/-- C3 witness: with one visitor row and one purchase of amount 100 the
returned `avg_purchase` is the mean 100; with no visitor row and the same
purchase table it is the synthetic draw 60 (= Uniform[40,80] at raw draw
1/2), not the mean. -/
theorem avg_purchase_mode_witness :
    (get_key_metrics_core [mkVRow 1 false] [mkPRow 100] rngHalf).avg_purchase = 100
    ∧ (get_key_metrics_core [] [mkPRow 100] rngHalf).avg_purchase = 60 := by
  constructor
  · have h := (avg_purchase_mode [mkVRow 1 false] [mkPRow 100] rngHalf).1 (by decide)
    rw [h]
    norm_num [qmean, mkPRow]
  · have h := (avg_purchase_mode [] [mkPRow 100] rngHalf).2 rfl
    rw [h]
    norm_num [uniform, rngHalf]

/-- C3 counterexample: with a non-empty visitor table and an EMPTY
purchase table, `avg_purchase` is 0, not a synthetic Uniform[40,80] draw
(which would be 60 at raw draw 1/2); and with an empty visitor table and
a NON-EMPTY purchase table it is the synthetic 60, not the mean 100 —
both directions of the claimed purchase-table mode selection fail. -/
theorem avg_purchase_mode_counterexample :
    (get_key_metrics_core [mkVRow 1 false] [] rngHalf).avg_purchase = 0
    ∧ uniform 40 80 (rngHalf.reals 1) = 60
    ∧ (0 : ℚ) ≠ 60
    ∧ (get_key_metrics_core [] [mkPRow 100] rngHalf).avg_purchase = 60
    ∧ qmean ([mkPRow 100].map (fun p => p.amount)) = 100
    ∧ (60 : ℚ) ≠ 100 := by
  refine ⟨?_, by norm_num [uniform, rngHalf], by norm_num, ?_,
    by norm_num [qmean, mkPRow], by norm_num⟩
  · simp [get_key_metrics_core]
  · norm_num [get_key_metrics_core, uniform, rngHalf]

/-- C7: for every non-empty visitor table, `get_key_metrics` returns
`conversion_rate` equal to 100 x (number of rows with `converted = true`
divided by the total row count). -/
theorem conversion_rate_formula (visitors : List VisitorRow)
    (purchases : List PurchaseRow) (rng : Rng) (h : visitors ≠ []) :
    (get_key_metrics_core visitors purchases rng).conversion_rate
      = ((visitors.filter (fun r => r.converted)).length : ℚ)
          / (visitors.length : ℚ) * 100 := by
  rcases visitors with _ | ⟨v, vs⟩
  · exact absurd rfl h
  · simp [get_key_metrics_core]

/-- C7 witness: for 100 visitor rows of which exactly 25 have
`converted = true`, the returned conversion rate is exactly 25. -/
theorem conversion_rate_formula_witness :
    (get_key_metrics_core
        (List.replicate 75 (mkVRow 1 false) ++ List.replicate 25 (mkVRow 1 true))
        [] rng0).conversion_rate = 25 := by
  rw [conversion_rate_formula
    (List.replicate 75 (mkVRow 1 false) ++ List.replicate 25 (mkVRow 1 true))
    [] rng0 (by decide)]
  simp [List.filter_append, List.filter_replicate, mkVRow]

/-- The real-data branch of `get_dwell_time_distribution`, spelled out. -/
lemma dwell_df (visitors : List VisitorRow) (rng : Rng) (h : 0 < visitors.length) :
    get_dwell_time_distribution visitors rng
      = { columns := ["duration_category", "count"],
          rows := [[Val.s "< 5 min", Val.n (dwellCount visitors 0)],
                   [Val.s "5-15 min", Val.n (dwellCount visitors 1)],
                   [Val.s "15-30 min", Val.n (dwellCount visitors 2)],
                   [Val.s "30-60 min", Val.n (dwellCount visitors 3)],
                   [Val.s "> 60 min", Val.n (dwellCount visitors 4)]] } := by
  unfold get_dwell_time_distribution
  rw [if_pos h]

/-- Characterization of the duration buckets: `pd.cut`'s default
intervals are left-open right-closed. -/
lemma durationCategory_eq_some (d : Int) :
    (durationCategory d = some 0 ↔ 0 < d ∧ d ≤ 5)
    ∧ (durationCategory d = some 1 ↔ 5 < d ∧ d ≤ 15)
    ∧ (durationCategory d = some 2 ↔ 15 < d ∧ d ≤ 30)
    ∧ (durationCategory d = some 3 ↔ 30 < d ∧ d ≤ 60)
    ∧ (durationCategory d = some 4 ↔ 60 < d) := by
  unfold durationCategory
  split_ifs with h1 h2 h3 h4 h5 <;>
    refine ⟨?_, ?_, ?_, ?_, ?_⟩ <;>
      first
        | (refine iff_of_true rfl ?_; omega)
        | (refine iff_of_false (by decide) ?_; omega)

/-- C2 (amended): the duration buckets of the real-data branch are
open-closed (left-exclusive, right-inclusive), not closed-open: a row
with duration exactly 5 is counted in the `< 5 min` bucket (not
`5-15 min`), and a row with duration exactly 60 is counted in the
`30-60 min` bucket (which the original claim also states); the last
bucket is open-ended above 60, and durations at or below 0 fall in no
bucket. -/
theorem dwell_bucket_boundaries (visitors : List VisitorRow) (rng : Rng)
    (h : visitors ≠ []) :
    countOf (get_dwell_time_distribution visitors rng) "< 5 min"
        = visitors.countP (fun r => decide (0 < r.duration ∧ r.duration ≤ 5))
    ∧ countOf (get_dwell_time_distribution visitors rng) "5-15 min"
        = visitors.countP (fun r => decide (5 < r.duration ∧ r.duration ≤ 15))
    ∧ countOf (get_dwell_time_distribution visitors rng) "30-60 min"
        = visitors.countP (fun r => decide (30 < r.duration ∧ r.duration ≤ 60))
    ∧ countOf (get_dwell_time_distribution visitors rng) "> 60 min"
        = visitors.countP (fun r => decide (60 < r.duration)) := by
  have hdf := dwell_df visitors rng (List.length_pos.mpr h)
  refine ⟨?_, ?_, ?_, ?_⟩ <;> rw [hdf]
  · show dwellCount visitors 0 = _
    exact List.countP_congr fun a _ => by
      simpa using (durationCategory_eq_some a.duration).1
  · show dwellCount visitors 1 = _
    exact List.countP_congr fun a _ => by
      simpa using (durationCategory_eq_some a.duration).2.1
  · show dwellCount visitors 3 = _
    exact List.countP_congr fun a _ => by
      simpa using (durationCategory_eq_some a.duration).2.2.2.1
  · show dwellCount visitors 4 = _
    exact List.countP_congr fun a _ => by
      simpa using (durationCategory_eq_some a.duration).2.2.2.2

/-- C2 witness: in a table with one row of duration 5 and one of
duration 60, the `< 5 min` and `30-60 min` buckets have count 1 and the
`5-15 min` and `> 60 min` buckets have count 0. -/
theorem dwell_bucket_boundaries_witness :
    countOf (get_dwell_time_distribution [mkVRow 5 false, mkVRow 60 false] rng0) "< 5 min" = 1
    ∧ countOf (get_dwell_time_distribution [mkVRow 5 false, mkVRow 60 false] rng0) "5-15 min" = 0
    ∧ countOf (get_dwell_time_distribution [mkVRow 5 false, mkVRow 60 false] rng0) "30-60 min" = 1
    ∧ countOf (get_dwell_time_distribution [mkVRow 5 false, mkVRow 60 false] rng0) "> 60 min" = 0 := by
  have h := dwell_bucket_boundaries [mkVRow 5 false, mkVRow 60 false] rng0 (by decide)
  exact ⟨by rw [h.1]; decide, by rw [h.2.1]; decide,
    by rw [h.2.2.1]; decide, by rw [h.2.2.2]; decide⟩

/-- C2 counterexample: for a visitor table containing one row with
duration exactly 5, the `5-15 min` bucket of the returned distribution
has count 0 and the `< 5 min` bucket has count 1 — the row is counted in
`< 5 min`, contradicting the claimed closed-open bucketing. -/
theorem dwell_boundary_five_counterexample :
    countOf (get_dwell_time_distribution [mkVRow 5 false] rng0) "5-15 min" = 0
    ∧ countOf (get_dwell_time_distribution [mkVRow 5 false] rng0) "< 5 min" = 1 := by
  decide

/-- Summing the five bucket counts counts exactly the rows whose
duration falls in some bucket. -/
lemma dwellCount_sum (vs : List VisitorRow) :
    dwellCount vs 0 + dwellCount vs 1 + dwellCount vs 2 + dwellCount vs 3 + dwellCount vs 4
      = vs.countP (fun r => (durationCategory r.duration).isSome) := by
  induction vs with
  | nil => rfl
  | cons x xs ih =>
    simp only [dwellCount, List.countP_cons] at ih ⊢
    rcases hx : durationCategory x.duration with _ | i
    · simp [hx]
      omega
    · fin_cases i <;> simp [hx] <;> omega

/-- C10: for every visitor table containing a row with duration exactly
0, `get_dwell_time_distribution` assigns that row to no duration bucket
(duration 0 lies outside `pd.cut`'s left-open first bin), so the sum of
the returned bucket counts is strictly less than the number of visitor
rows. -/
theorem zero_duration_uncounted (visitors : List VisitorRow) (rng : Rng)
    (r : VisitorRow) (hr : r ∈ visitors) (hd : r.duration = 0) :
    countSum (get_dwell_time_distribution visitors rng) < visitors.length := by
  have hne : visitors ≠ [] := List.ne_nil_of_mem hr
  have hkey : dwellCount visitors 0 + dwellCount visitors 1 + dwellCount visitors 2
      + dwellCount visitors 3 + dwellCount visitors 4 < visitors.length := by
    rw [dwellCount_sum]
    have hle : visitors.countP (fun v => (durationCategory v.duration).isSome)
        ≤ visitors.length :=
      List.countP_le_length (fun (v : VisitorRow) => (durationCategory v.duration).isSome)
    have hne2 : visitors.countP (fun v => (durationCategory v.duration).isSome)
        ≠ visitors.length := by
      intro hEq
      have hall := List.countP_eq_length.mp hEq r hr
      rw [hd] at hall
      exact absurd hall (by decide)
    omega
  rw [dwell_df visitors rng (List.length_pos.mpr hne)]
  show dwellCount visitors 0 + (dwellCount visitors 1 + (dwellCount visitors 2
    + (dwellCount visitors 3 + (dwellCount visitors 4 + 0)))) < visitors.length
  omega

/-- C10 witness: a two-row table with durations 0 and 7 yields bucket
counts summing to 1, strictly less than the 2 rows. -/
theorem zero_duration_uncounted_witness :
    countSum (get_dwell_time_distribution [mkVRow 0 false, mkVRow 7 false] rng0) < 2 := by
  exact zero_duration_uncounted [mkVRow 0 false, mkVRow 7 false] rng0 (mkVRow 0 false)
    (by decide) rfl

/-- A clamped coordinate is at most 9. -/
lemma clamp9_le (v : Int) : clamp9 v ≤ 9 := by
  unfold clamp9
  omega

/-- In a 10 by 10 grid, every row fetched at an index below 10 has
length 10. -/
lemma row_length_of_shape (g : List (List ℚ))
    (h : g.map List.length = List.replicate 10 10) (y : Nat) (hy : y < 10) :
    (g.getD y []).length = 10 := by
  have hlen : g.length = 10 := by
    simpa using congrArg List.length h
  have hyg : y < g.length := by omega
  have hq := congrArg (fun l => l.getD y 0) h
  simp only [List.getD_eq_getElem?_getD, List.getElem?_map,
    List.getElem?_eq_getElem hyg, Option.map_some', Option.getD_some,
    List.getElem?_replicate_of_lt hy] at hq
  rw [List.getD_eq_getElem?_getD, List.getElem?_eq_getElem hyg, Option.getD_some]
  exact hq

/-- Writing any record's cell preserves the 10 by 10 grid shape. -/
lemma applyRecord_shape (g : List (List ℚ)) (r : HeatmapRecord)
    (h : g.map List.length = List.replicate 10 10) :
    (applyRecord g r).map List.length = List.replicate 10 10 := by
  unfold applyRecord setCell
  rw [List.map_set, h, List.length_set,
    row_length_of_shape g h _ (by have := clamp9_le (r.y.getD 0); omega),
    List.set_replicate_self]

/-- Folding any record list over a 10 by 10 grid preserves its shape. -/
lemma foldl_shape (records : List HeatmapRecord) :
    ∀ g : List (List ℚ), g.map List.length = List.replicate 10 10 →
      (records.foldl applyRecord g).map List.length = List.replicate 10 10 := by
  induction records with
  | nil => exact fun g h => h
  | cons r rest ih => exact fun g h => ih (applyRecord g r) (applyRecord_shape g r h)

/-- C9: in the real-data branch of `get_heatmap_data` (any record list
with at least one record, written `records ++ [r]`), the result is
always a 10 by 10 grid, and every record's coordinates — including ones
outside `[0,9]` — are clamped into `[0,9]` and written, never rejected:
the cell at the clamped coordinates of the last record holds that
record's density. -/
theorem heatmap_clamped_grid (records : List HeatmapRecord) (r : HeatmapRecord)
    (rng : Rng) :
    (get_heatmap_data (records ++ [r]) rng).map List.length = List.replicate 10 10
    ∧ ((get_heatmap_data (records ++ [r]) rng).getD (clamp9 (r.y.getD 0)) []).getD
        (clamp9 (r.x.getD 0)) 0 = r.density.getD 0 := by
  have hne : ((records ++ [r]).isEmpty) = false := by
    simp
  unfold get_heatmap_data
  rw [hne]
  simp only [Bool.false_eq_true, if_false, List.foldl_append, List.foldl_cons,
    List.foldl_nil]
  have hzero : (zeroGrid.map List.length) = List.replicate 10 10 := by
    decide
  have hshape := foldl_shape records zeroGrid hzero
  have hshape2 := applyRecord_shape (records.foldl applyRecord zeroGrid) r hshape
  refine ⟨hshape2, ?_⟩
  set g := records.foldl applyRecord zeroGrid with hg
  have hy := clamp9_le (r.y.getD 0)
  have hx := clamp9_le (r.x.getD 0)
  have hglen : g.length = 10 := by
    have := congrArg List.length hshape
    simpa using this
  have hrowlen : (g.getD (clamp9 (r.y.getD 0)) []).length = 10 :=
    row_length_of_shape g hshape _ (by omega)
  unfold applyRecord setCell
  simp only [List.getD_eq_getElem?_getD] at hrowlen ⊢
  rw [List.getElem?_set_self (by omega), Option.getD_some,
    List.getElem?_set_self (by omega), Option.getD_some]

/-- A `random.choice` pick from a non-empty list is an element of it. -/
lemma pyChoice_mem (xs : List Recommendation) (r : Nat) (h : xs ≠ []) :
    pyChoice xs r ∈ xs := by
  unfold pyChoice
  have hlen : 0 < xs.length := List.length_pos.mpr h
  rw [List.getD_eq_getElem _ _ (Nat.mod_lt r hlen)]
  exact List.getElem_mem _

/-- When the catalog has candidates of the requested category, the
per-category pick has that category. -/
lemma get_recommendation_by_category_cat (recs : List Recommendation)
    (cat : String) (r : Nat)
    (h : recs.filter (fun c => decide (c.category = cat)) ≠ []) :
    (get_recommendation_by_category recs cat r).category = cat := by
  unfold get_recommendation_by_category
  rw [if_pos (List.length_pos.mpr h)]
  have hm := pyChoice_mem _ r h
  have hf := List.mem_filter.mp hm
  simpa using hf.2

/-- The category column of the static catalog, independent of the store
name templated into the descriptions. -/
lemma potential_categories (s : String) :
    (potential_recommendations s).map (fun c => c.category)
      = ["engagement", "engagement", "engagement", "conversion", "conversion",
         "conversion", "upsell", "upsell", "upsell", "loyalty", "loyalty",
         "marketing", "marketing", "marketing", "operations", "operations"] := rfl

/-- Filtering the catalog on a category has the same length as filtering
its category column. -/
lemma filter_cat_length (s cat : String) :
    ((potential_recommendations s).filter (fun c => decide (c.category = cat))).length
      = (((potential_recommendations s).map (fun c => c.category)).filter
          (fun x => decide (x = cat))).length := by
  rw [← List.countP_eq_length_filter, ← List.countP_eq_length_filter, List.countP_map]
  rfl

/-- The catalog's filtered candidate list for a category is non-empty
whenever the category column contains that category. -/
lemma potential_filter_ne (s cat : String)
    (h : 0 < (((potential_recommendations s).map (fun c => c.category)).filter
        (fun x => decide (x = cat))).length) :
    (potential_recommendations s).filter (fun c => decide (c.category = cat)) ≠ [] := by
  intro hnil
  have hlen := congrArg List.length hnil
  rw [filter_cat_length] at hlen
  rw [hlen] at h
  exact absurd h (by decide)

/-- The fill loop only appends: it returns the selected list followed by
exactly `k` picked items. -/
lemma fillSlots_append (potential : List Recommendation) (rng : Rng) :
    ∀ (k : Nat) (sel : List Recommendation) (i : Nat),
      ∃ t : List Recommendation,
        fillSlots potential sel k rng i = sel ++ t ∧ t.length = k := by
  intro k
  induction k with
  | zero => exact fun sel i => ⟨[], by simp [fillSlots]⟩
  | succ k ih =>
    intro sel i
    obtain ⟨t, ht, hlen⟩ := ih (sel ++ [fillPick potential sel rng i]) (i + 1)
    refine ⟨fillPick potential sel rng i :: t, ?_, by simp [hlen]⟩
    show fillSlots potential (sel ++ [fillPick potential sel rng i]) k rng (i + 1) = _
    rw [ht, List.append_assoc]
    rfl

/-- Assigning impact scores preserves the category column. -/
lemma setImpacts_categories (rng : Rng) :
    ∀ (l : List Recommendation) (i : Nat),
      (setImpacts l rng i).map (fun c => c.category) = l.map (fun c => c.category) := by
  intro l
  induction l with
  | nil => exact fun _ => rfl
  | cons c rest ih => exact fun i => by simp [setImpacts, ih (i + 1)]

/-- Assigning impact scores preserves the list length. -/
lemma setImpacts_length (rng : Rng) :
    ∀ (l : List Recommendation) (i : Nat), (setImpacts l rng i).length = l.length := by
  intro l
  induction l with
  | nil => exact fun _ => rfl
  | cons c rest ih => exact fun i => by simp [setImpacts, ih (i + 1)]

/-- Every member's category survives the impact-score pass. -/
lemma setImpacts_exists_cat (rng : Rng) (l : List Recommendation) (i : Nat)
    (x : Recommendation) (hx : x ∈ l) :
    ∃ y ∈ setImpacts l rng i, y.category = x.category := by
  have h1 : x.category ∈ (setImpacts l rng i).map (fun c => c.category) := by
    rw [setImpacts_categories]
    exact List.mem_map_of_mem _ hx
  obtain ⟨y, hy, hyc⟩ := List.mem_map.mp h1
  exact ⟨y, hy, hyc⟩

/-- `random.randint(a, b)` stays in `[a, b]`. -/
lemma pyRandint_bounds (a b r : Nat) (h : a ≤ b) :
    a ≤ pyRandint a b r ∧ pyRandint a b r ≤ b := by
  unfold pyRandint
  have := Nat.mod_lt r (y := b - a + 1) (by omega)
  omega

/-- C8: when both fetched tables are non-empty and all three threshold
rules fire (average dwell time below 10, conversion rate below 20,
average purchase below 50), `get_recommendations` returns at least one
item each from the `engagement`, `conversion` and `upsell` categories,
and the list's total length is between 3 and 5 inclusive. -/
theorem recommendations_thresholds (store_name : String) (visitors : List VisitorRow)
    (purchases : List PurchaseRow) (rng : Rng)
    (hv : visitors ≠ []) (hp : purchases ≠ [])
    (hd : qmean (visitors.map (fun r => (r.duration : ℚ))) < 10)
    (hcv : ((visitors.filter (fun r => r.converted)).length : ℚ)
        / (visitors.length : ℚ) * 100 < 20)
    (ha : qmean (purchases.map (fun p => p.amount)) < 50) :
    (∃ c ∈ get_recommendations store_name visitors purchases rng,
        c.category = "engagement")
    ∧ (∃ c ∈ get_recommendations store_name visitors purchases rng,
        c.category = "conversion")
    ∧ (∃ c ∈ get_recommendations store_name visitors purchases rng,
        c.category = "upsell")
    ∧ 3 ≤ (get_recommendations store_name visitors purchases rng).length
    ∧ (get_recommendations store_name visitors purchases rng).length ≤ 5 := by
  have hcond : 0 < visitors.length ∧ 0 < purchases.length :=
    ⟨List.length_pos.mpr hv, List.length_pos.mpr hp⟩
  simp only [get_recommendations]
  rw [if_pos hcond, if_pos hd, if_pos hcv, if_pos ha]
  set P := potential_recommendations store_name with hP
  set e := get_recommendation_by_category P "engagement" (rng.ints 1) with he
  set c := get_recommendation_by_category P "conversion" (rng.ints 2) with hc
  set u := get_recommendation_by_category P "upsell" (rng.ints 3) with hu
  set num := pyRandint 3 5 (rng.ints 0) with hnum
  obtain ⟨t, ht, htlen⟩ :=
    fillSlots_append P rng (num - (([e] ++ [c]) ++ [u]).length) (([e] ++ [c]) ++ [u]) 4
  rw [ht]
  have hecat : e.category = "engagement" := by
    rw [he, hP]
    exact get_recommendation_by_category_cat _ _ _
      (potential_filter_ne store_name "engagement" (by rw [potential_categories]; decide))
  have hccat : c.category = "conversion" := by
    rw [hc, hP]
    exact get_recommendation_by_category_cat _ _ _
      (potential_filter_ne store_name "conversion" (by rw [potential_categories]; decide))
  have hucat : u.category = "upsell" := by
    rw [hu, hP]
    exact get_recommendation_by_category_cat _ _ _
      (potential_filter_ne store_name "upsell" (by rw [potential_categories]; decide))
  have hnumb := pyRandint_bounds 3 5 (rng.ints 0) (by omega)
  rw [← hnum] at hnumb
  simp only [List.length_append, List.length_cons, List.length_nil] at htlen
  refine ⟨?_, ?_, ?_, ?_, ?_⟩
  · have hin : e ∈ (([e] ++ [c]) ++ [u]) ++ t := by simp
    obtain ⟨y, hy, hyc⟩ := setImpacts_exists_cat rng _ 100 e hin
    exact ⟨y, hy, by rw [hyc, hecat]⟩
  · have hin : c ∈ (([e] ++ [c]) ++ [u]) ++ t := by simp
    obtain ⟨y, hy, hyc⟩ := setImpacts_exists_cat rng _ 100 c hin
    exact ⟨y, hy, by rw [hyc, hccat]⟩
  · have hin : u ∈ (([e] ++ [c]) ++ [u]) ++ t := by simp
    obtain ⟨y, hy, hyc⟩ := setImpacts_exists_cat rng _ 100 u hin
    exact ⟨y, hy, by rw [hyc, hucat]⟩
  · rw [setImpacts_length]
    simp only [List.length_append, List.length_cons, List.length_nil]
    omega
  · rw [setImpacts_length]
    simp only [List.length_append, List.length_cons, List.length_nil]
    omega

/-- C8 witness: one visitor of duration 3 (not converted) and one
purchase of amount 10 trigger all three rules; the returned list has one
item from each of the three categories and between 3 and 5 items. -/
theorem recommendations_thresholds_witness :
    (∃ c ∈ get_recommendations "Store A" [mkVRow 3 false] [mkPRow 10] rng0,
        c.category = "engagement")
    ∧ (∃ c ∈ get_recommendations "Store A" [mkVRow 3 false] [mkPRow 10] rng0,
        c.category = "conversion")
    ∧ (∃ c ∈ get_recommendations "Store A" [mkVRow 3 false] [mkPRow 10] rng0,
        c.category = "upsell")
    ∧ 3 ≤ (get_recommendations "Store A" [mkVRow 3 false] [mkPRow 10] rng0).length
    ∧ (get_recommendations "Store A" [mkVRow 3 false] [mkPRow 10] rng0).length ≤ 5 := by
  exact recommendations_thresholds "Store A" [mkVRow 3 false] [mkPRow 10] rng0
    (by decide) (by decide)
    (by norm_num [qmean, mkVRow])
    (by norm_num [mkVRow])
    (by norm_num [qmean, mkPRow])

end Wandur
